import Mathlib

/-!
Shallow embedding of the modal focus-trap module (`src/js/modal.js`) and the
pixel chart renderer (`src/js/charts.js`) of the portfolio repository, with
theorems settling the frozen claims about them.

JavaScript numbers are modelled exactly over the rationals, extended with
`NaN` and the two infinities so that division by zero and arithmetic on the
special values follow the JavaScript (IEEE-754 style) rules.  The inputs in
the claims involve only small exact values, so no rounding occurs and the
rational model agrees with the floating-point evaluation.
-/

namespace Spec2Proof

/-- JavaScript number: an exact rational, `NaN`, `+Infinity` or `-Infinity`. -/
inductive JSNum where
  | fin (q : ℚ)
  | nan
  | posInf
  | negInf
deriving DecidableEq, Repr

namespace JSNum

/-- Addition following the JavaScript special-value rules. -/
def add : JSNum → JSNum → JSNum
  | nan, _ => nan
  | _, nan => nan
  | posInf, negInf => nan
  | negInf, posInf => nan
  | posInf, _ => posInf
  | _, posInf => posInf
  | negInf, _ => negInf
  | _, negInf => negInf
  | fin a, fin b => fin (a + b)

/-- Subtraction following the JavaScript special-value rules. -/
def sub : JSNum → JSNum → JSNum
  | nan, _ => nan
  | _, nan => nan
  | posInf, posInf => nan
  | negInf, negInf => nan
  | posInf, _ => posInf
  | negInf, _ => negInf
  | fin _, posInf => negInf
  | fin _, negInf => posInf
  | fin a, fin b => fin (a - b)

/-- Multiplication following the JavaScript special-value rules
(`0 * Infinity = NaN`). -/
def mul : JSNum → JSNum → JSNum
  | nan, _ => nan
  | _, nan => nan
  | fin a, fin b => fin (a * b)
  | posInf, fin b => if b = 0 then nan else if 0 < b then posInf else negInf
  | fin a, posInf => if a = 0 then nan else if 0 < a then posInf else negInf
  | negInf, fin b => if b = 0 then nan else if 0 < b then negInf else posInf
  | fin a, negInf => if a = 0 then nan else if 0 < a then negInf else posInf
  | posInf, posInf => posInf
  | posInf, negInf => negInf
  | negInf, posInf => negInf
  | negInf, negInf => posInf

/-- Division following the JavaScript special-value rules: `0/0 = NaN`,
`x/0 = ±Infinity` for `x ≠ 0` (the model has no signed zero; a zero divisor
behaves as `+0`, which is what the embedded code produces). -/
def div : JSNum → JSNum → JSNum
  | nan, _ => nan
  | _, nan => nan
  | fin a, fin b =>
      if b = 0 then (if a = 0 then nan else if 0 < a then posInf else negInf)
      else fin (a / b)
  | fin _, posInf => fin 0
  | fin _, negInf => fin 0
  | posInf, fin b => if 0 ≤ b then posInf else negInf
  | negInf, fin b => if 0 ≤ b then negInf else posInf
  | posInf, posInf => nan
  | posInf, negInf => nan
  | negInf, posInf => nan
  | negInf, negInf => nan

/-- A JavaScript number is finite when it is neither `NaN` nor an infinity. -/
def isFinite : JSNum → Bool
  | fin _ => true
  | _ => false

end JSNum

/-- Result of `Math.max(...values)` on a list of plain numbers: the maximum,
or `-Infinity` for the empty argument list. -/
def jsMaxQ : List ℚ → JSNum
  | [] => JSNum.negInf
  | x :: xs => JSNum.fin (xs.foldl max x)

/-- Result of `Math.min(...values)` on a list of plain numbers: the minimum,
or `+Infinity` for the empty argument list. -/
def jsMinQ : List ℚ → JSNum
  | [] => JSNum.posInf
  | x :: xs => JSNum.fin (xs.foldl min x)

/-- The JavaScript expression `x || 1`: `x` when truthy, `1` when `x` is a
falsy number (`0` or `NaN`; the model has no `-0`). -/
def jsOrOne (x : JSNum) : JSNum :=
  if x = JSNum.fin 0 ∨ x = JSNum.nan then JSNum.fin 1 else x

namespace Charts

/-- A drawing surface: logical size plus whether `getContext('2d')` yields a
context.  The bar chart reads the size from `getBoundingClientRect()`, the
sparkline from the `width`/`height` properties; both are modelled by the same
record (the device-pixel-ratio rescaling of the backing store does not affect
the logical drawing coordinates). -/
structure Canvas where
  width : ℚ
  height : ℚ
  ctxAvailable : Bool
deriving DecidableEq, Repr

/-- A chart data point `{ label, value }`. -/
structure DataPoint where
  label : String
  value : ℚ
deriving DecidableEq, Repr

/-- The rectangle handed to `drawPixelBar` for one data point, before the
integer flooring applied inside `drawPixelBar`. -/
structure BarRect where
  x : JSNum
  y : JSNum
  w : JSNum
  h : JSNum
deriving DecidableEq, Repr

/-- Embedding of `renderPixelBarChart` (`src/js/charts.js:44`).  A `null`
canvas makes `canvas.getContext('2d')` throw a `TypeError`, modelled as
`Except.error`; an unavailable 2d context returns before any drawing,
modelled as `.ok none`; otherwise the list of per-point bar rectangles is
produced (`.ok (some bars)`), computed exactly as in the source:
`maxValue = Math.max(...values)`, `barWidth = chartWidth / data.length`,
`barPadding = barWidth * 0.2`, `actualBarWidth = barWidth - barPadding`,
`barHeight = (value / maxValue) * chartHeight`,
`x = padding + index * barWidth + barPadding / 2`,
`y = padding + chartHeight - barHeight`. -/
def renderPixelBarChart (canvas : Option Canvas) (data : List DataPoint) :
    Except String (Option (List BarRect)) :=
  match canvas with
  | none => .error "TypeError: canvas is null"
  | some cv =>
    if cv.ctxAvailable = false then .ok none
    else
      let width := cv.width
      let height := cv.height
      let padding : ℚ := 40
      let chartWidth := width - padding * 2
      let chartHeight := height - padding * 2
      let maxValue := jsMaxQ (data.map (fun d => d.value))
      let barWidth := JSNum.div (.fin chartWidth) (.fin (data.length : ℚ))
      let barPadding := JSNum.mul barWidth (.fin (1/5 : ℚ))
      let actualBarWidth := JSNum.sub barWidth barPadding
      let bars := data.enum.map (fun p =>
        let barHeight := JSNum.mul (JSNum.div (.fin p.2.value) maxValue) (.fin chartHeight)
        let x := JSNum.add (JSNum.add (.fin padding) (JSNum.mul (.fin (p.1 : ℚ)) barWidth))
                   (JSNum.div barPadding (.fin 2))
        let y := JSNum.sub (JSNum.add (.fin padding) (.fin chartHeight)) barHeight
        BarRect.mk x y actualBarWidth barHeight)
      .ok (some bars)

/-- The sparkline's horizontal step, exactly as computed at
`src/js/charts.js:211`: `stepX = (width - padding * 2) / (values.length - 1)`
with `padding = 4` and no guard on the denominator. -/
def sparkStepX (cv : Canvas) (values : List ℚ) : JSNum :=
  JSNum.div (.fin (cv.width - 4 * 2)) (.fin ((values.length : ℚ) - 1))

/-- Embedding of `renderSparkline` (`src/js/charts.js:196`).  Same failure
modelling as the bar chart; the successful case returns the `(x, y)`
coordinates of the polyline points, computed exactly as in the source:
`range = maxValue - minValue || 1`,
`stepX = (width - padding * 2) / (values.length - 1)`,
`x = padding + index * stepX`,
`y = height - padding - ((value - minValue) / range) * (height - padding * 2)`. -/
def renderSparkline (canvas : Option Canvas) (values : List ℚ) :
    Except String (Option (List (JSNum × JSNum))) :=
  match canvas with
  | none => .error "TypeError: canvas is null"
  | some cv =>
    if cv.ctxAvailable = false then .ok none
    else
      let height := cv.height
      let padding : ℚ := 4
      let minValue := jsMinQ values
      let range := jsOrOne (JSNum.sub (jsMaxQ values) minValue)
      let stepX := sparkStepX cv values
      let pts := values.enum.map (fun p =>
        let x := JSNum.add (.fin padding) (JSNum.mul (.fin (p.1 : ℚ)) stepX)
        let y := JSNum.sub (JSNum.sub (.fin height) (.fin padding))
                   (JSNum.mul (JSNum.div (JSNum.sub (.fin p.2) minValue) range)
                     (.fin (height - padding * 2)))
        (x, y))
      .ok (some pts)

end Charts

namespace Modal

/-- A DOM element inside a modal, with the fields the focusable-element query
inspects: tag name, class list, an `href` attribute (for `a[href]`), the
`disabled` flag, the literal string value of the `tabindex` attribute when
present, and whether `offsetParent` is `null` (the visibility filter). -/
structure DomElem where
  id : Nat
  tag : String
  classes : List String
  href : Option String
  disabled : Bool
  tabindex : Option String
  offsetParentIsNull : Bool
deriving DecidableEq, Repr

/-- A modal element: its id plus its descendant elements in document order. -/
structure ModalElem where
  id : Nat
  children : List DomElem
deriving DecidableEq, Repr

/-- The module-level mutable state of `src/js/modal.js:8-12`. -/
structure ModalState where
  currentModal : Option Nat
  focusableElements : List Nat
  firstFocusable : Option Nat
  lastFocusable : Option Nat
  previousFocus : Option Nat
deriving DecidableEq, Repr

/-- The page state the modal module reads and writes: the focused element
(`document.activeElement`, in a browser always some element — the body when
nothing else is focused), `document.body.style.overflow`, the set of element
ids carrying the `hidden` attribute, and each element's `aria-hidden` value. -/
structure World where
  activeElement : Nat
  bodyOverflow : String
  hiddenSet : List Nat
  ariaHidden : List (Nat × String)
deriving DecidableEq, Repr

/-- Whether an element matches the selector list of `getFocusableElements`
(`src/js/modal.js:150-157`): `a[href]`, `button:not([disabled])`,
`textarea:not([disabled])`, `input:not([disabled])`, `select:not([disabled])`,
`[tabindex]:not([tabindex="-1"])`. -/
def matchesFocusableSelector (e : DomElem) : Bool :=
  (e.tag = "a" && e.href.isSome) ||
  (e.tag = "button" && !e.disabled) ||
  (e.tag = "textarea" && !e.disabled) ||
  (e.tag = "input" && !e.disabled) ||
  (e.tag = "select" && !e.disabled) ||
  (e.tabindex.isSome && e.tabindex != some "-1")

/-- Embedding of `getFocusableElements` (`src/js/modal.js:149`): the
selector-matching descendants, filtered to those with a non-null
`offsetParent`. -/
def getFocusableElements (container : List DomElem) : List DomElem :=
  (container.filter matchesFocusableSelector).filter (fun e => !e.offsetParentIsNull)

/-- Embedding of `modal.querySelector('.modal-close')`: the first descendant
in document order carrying the `modal-close` class. -/
def queryCloseBtn (m : ModalElem) : Option DomElem :=
  m.children.find? (fun e => e.classes.contains "modal-close")

/-- Adding the `hidden` attribute to an element (a set insertion). -/
def setHiddenAttr (s : List Nat) (i : Nat) : List Nat :=
  if i ∈ s then s else i :: s

/-- Removing the `hidden` attribute from an element. -/
def removeHiddenAttr (s : List Nat) (i : Nat) : List Nat :=
  s.filter (fun j => j ≠ i)

/-- Setting an element's `aria-hidden` attribute value. -/
def setAria (l : List (Nat × String)) (i : Nat) (v : String) : List (Nat × String) :=
  (i, v) :: l.filter (fun p => p.1 ≠ i)

/-- Reading an element's `aria-hidden` attribute value. -/
def getAria : List (Nat × String) → Nat → Option String
  | [], _ => none
  | p :: rest, i => if p.1 = i then some p.2 else getAria rest i

/-- Embedding of `openModal` (`src/js/modal.js:45`), following the source
order: record `previousFocus`, remove `hidden`, set `currentModal`, lock body
scroll, compute the focusable elements and the first/last boundary
references, focus the close button if present else the first focusable
element if any, then set `aria-hidden="false"`. -/
def openModal (st : ModalState) (w : World) (modal : Option ModalElem) :
    ModalState × World :=
  match modal with
  | none => (st, w)
  | some m =>
    let prev := w.activeElement
    let w1 : World :=
      { w with hiddenSet := removeHiddenAttr w.hiddenSet m.id, bodyOverflow := "hidden" }
    let fs := (getFocusableElements m.children).map (fun e => e.id)
    let st1 : ModalState :=
      { currentModal := some m.id, focusableElements := fs,
        firstFocusable := fs.head?, lastFocusable := fs.getLast?,
        previousFocus := some prev }
    let w2 : World :=
      match queryCloseBtn m with
      | some c => { w1 with activeElement := c.id }
      | none =>
        match fs.head? with
        | some f => { w1 with activeElement := f }
        | none => w1
    (st1, { w2 with ariaHidden := setAria w2.ariaHidden m.id "false" })

/-- Embedding of `closeModal` (`src/js/modal.js:79`): set `hidden` and
`aria-hidden="true"` on the passed element, restore body scroll, restore
focus to `previousFocus` when non-null, and clear all five module variables.
(The source nulls `previousFocus` inside the `if (previousFocus)` guard; when
the guard fails it is already null, so the state after is `none` either way.) -/
def closeModal (st : ModalState) (w : World) (modal : Option Nat) :
    ModalState × World :=
  match modal with
  | none => (st, w)
  | some mid =>
    let w1 : World :=
      { w with hiddenSet := setHiddenAttr w.hiddenSet mid,
               ariaHidden := setAria w.ariaHidden mid "true",
               bodyOverflow := "" }
    let w2 : World :=
      match st.previousFocus with
      | some p => { w1 with activeElement := p }
      | none => w1
    ({ currentModal := none, focusableElements := [], firstFocusable := none,
       lastFocusable := none, previousFocus := none }, w2)

/-- Calling `.focus()` on a possibly-null element reference: focusing `null`
throws a `TypeError`. -/
def jsFocus (w : World) (target : Option Nat) : Except String World :=
  match target with
  | some x => .ok { w with activeElement := x }
  | none => .error "TypeError: cannot focus null"

/-- Embedding of `handleTabKey` (`src/js/modal.js:125`).  Returns the updated
page state and whether `e.preventDefault()` was called. -/
def handleTabKey (st : ModalState) (w : World) (shiftKey : Bool) :
    Except String (World × Bool) :=
  if st.focusableElements.isEmpty then .ok (w, false)
  else if shiftKey then
    if some w.activeElement = st.firstFocusable then
      (jsFocus w st.lastFocusable).map (fun w2 => (w2, true))
    else .ok (w, false)
  else
    if some w.activeElement = st.lastFocusable then
      (jsFocus w st.firstFocusable).map (fun w2 => (w2, true))
    else .ok (w, false)

/-- Embedding of `handleModalKeydown` (`src/js/modal.js:105`).  Returns the
updated module state, page state, and whether `e.preventDefault()` was
called. -/
def handleModalKeydown (st : ModalState) (w : World) (key : String)
    (shiftKey : Bool) : Except String (ModalState × World × Bool) :=
  if st.currentModal = none then .ok (st, w, false)
  else if key = "Escape" ∨ key = "Esc" then
    let r := closeModal st w st.currentModal
    .ok (r.1, r.2, true)
  else if key = "Tab" then
    (handleTabKey st w shiftKey).map (fun r => (st, r.1, r.2))
  else .ok (st, w, false)

end Modal

section ChartLemmas

open Charts

lemma JSNum.add_fin (a b : ℚ) : JSNum.add (.fin a) (.fin b) = .fin (a + b) := rfl

lemma JSNum.sub_fin (a b : ℚ) : JSNum.sub (.fin a) (.fin b) = .fin (a - b) := rfl

lemma JSNum.mul_fin (a b : ℚ) : JSNum.mul (.fin a) (.fin b) = .fin (a * b) := rfl

lemma JSNum.div_fin (a b : ℚ) (hb : b ≠ 0) :
    JSNum.div (.fin a) (.fin b) = .fin (a / b) := by
  simp [JSNum.div, hb]

lemma foldl_max_const (xs : List ℚ) (c : ℚ) (h : ∀ x ∈ xs, x = c) :
    xs.foldl max c = c := by
  induction xs with
  | nil => rfl
  | cons a t ih =>
    have ha : a = c := h a (List.mem_cons_self a t)
    simp only [List.foldl_cons, ha, max_self]
    exact ih (fun x hx => h x (List.mem_cons_of_mem a hx))

lemma foldl_min_const (xs : List ℚ) (c : ℚ) (h : ∀ x ∈ xs, x = c) :
    xs.foldl min c = c := by
  induction xs with
  | nil => rfl
  | cons a t ih =>
    have ha : a = c := h a (List.mem_cons_self a t)
    simp only [List.foldl_cons, ha, min_self]
    exact ih (fun x hx => h x (List.mem_cons_of_mem a hx))

lemma jsMaxQ_const (values : List ℚ) (c : ℚ) (hne : values ≠ [])
    (h : ∀ v ∈ values, v = c) : jsMaxQ values = .fin c := by
  cases values with
  | nil => exact absurd rfl hne
  | cons a t =>
    have ha : a = c := h a (List.mem_cons_self a t)
    simp only [jsMaxQ, ha]
    rw [foldl_max_const t c (fun x hx => h x (List.mem_cons_of_mem a hx))]

lemma jsMinQ_const (values : List ℚ) (c : ℚ) (hne : values ≠ [])
    (h : ∀ v ∈ values, v = c) : jsMinQ values = .fin c := by
  cases values with
  | nil => exact absurd rfl hne
  | cons a t =>
    have ha : a = c := h a (List.mem_cons_self a t)
    simp only [jsMinQ, ha]
    rw [foldl_min_const t c (fun x hx => h x (List.mem_cons_of_mem a hx))]

lemma jsOrOne_zero : jsOrOne (.fin 0) = .fin 1 := by
  simp [jsOrOne]

lemma JSNum.mul_zero_nonfinite (x : JSNum) (hx : x.isFinite = false) :
    JSNum.mul (.fin 0) x = .nan := by
  cases x <;> simp [JSNum.mul, JSNum.isFinite] at hx ⊢

lemma JSNum.add_fin_nan (a : ℚ) : JSNum.add (.fin a) .nan = .nan := rfl

lemma JSNum.fst_nan_not_finite (x y : JSNum) (hx : x = JSNum.nan) :
    (x.isFinite && y.isFinite) = false := by
  subst hx
  simp [JSNum.isFinite]

lemma sparkStepX_singleton_nonfinite (cv : Charts.Canvas) (v : ℚ) :
    (Charts.sparkStepX cv [v]).isFinite = false := by
  simp only [Charts.sparkStepX, List.length_cons, List.length_nil, Nat.cast_one,
    sub_self, JSNum.div]
  norm_num
  split
  · rfl
  · split <;> rfl

end ChartLemmas

section ChartTheorems

open Charts

/-- C1: the claim says the `maxValue = 0` case is guarded so that every bar is
drawn with height exactly `0`; the code has no such guard
(`src/js/charts.js:68,88`), and on an all-zero input every bar height is
`(0/0) * chartHeight = NaN`.  Evaluation at a 400×300 canvas with a live 2d
context and data `[{Jan,0},{Feb,0}]`: both bars come out with `y` and `h`
equal to `NaN`, not `0`. -/
theorem renderPixelBarChart_allZero_nan_height :
    renderPixelBarChart (some ⟨400, 300, true⟩) [⟨"Jan", 0⟩, ⟨"Feb", 0⟩] =
      .ok (some [⟨.fin 56, .nan, .fin 128, .nan⟩, ⟨.fin 216, .nan, .fin 128, .nan⟩]) := by
  norm_num [renderPixelBarChart, jsMaxQ, List.enum, List.enumFrom,
    JSNum.div, JSNum.mul, JSNum.add, JSNum.sub]

/-- C7: with a live 2d context and a positive maximum, bar `i` has width
`slot * (1 - 1/5)` where `slot = plotWidth / n`, height
`(value / max) * plotHeight`, and x-position `padding + i * slot +
(slot * (1/5)) / 2` (equal slots, fixed fractional padding); and at a 400×300
canvas the input `[{Jan,0},{Feb,100}]` renders the Jan bar with height `0`
and the Feb bar with the full plot height `220`. -/
theorem renderPixelBarChart_layout :
    (∀ (cv : Canvas) (data : List DataPoint) (M : ℚ) (i : Nat),
      cv.ctxAvailable = true →
      jsMaxQ (data.map (fun d => d.value)) = .fin M → 0 < M →
      ∀ hi : i < data.length,
      ∃ bars, renderPixelBarChart (some cv) data = .ok (some bars) ∧
        bars.length = data.length ∧
        ∀ hib : i < bars.length,
          (bars[i]).w = .fin (((cv.width - 40 * 2) / (data.length : ℚ)) * (1 - 1/5)) ∧
          (bars[i]).h = .fin (((data[i]).value / M) * (cv.height - 40 * 2)) ∧
          (bars[i]).x = .fin (40 + (i : ℚ) * ((cv.width - 40 * 2) / (data.length : ℚ))
            + ((cv.width - 40 * 2) / (data.length : ℚ)) * (1/5) / 2)) ∧
    renderPixelBarChart (some ⟨400, 300, true⟩) [⟨"Jan", 0⟩, ⟨"Feb", 100⟩] =
      .ok (some [⟨.fin 56, .fin 260, .fin 128, .fin 0⟩,
                 ⟨.fin 216, .fin 40, .fin 128, .fin 220⟩]) := by
  constructor
  · intro cv data M i hctx hM hMpos hi
    have hn : ((data.length : ℚ)) ≠ 0 := by
      have : data.length ≠ 0 := by omega
      exact_mod_cast this
    have hM0 : M ≠ 0 := ne_of_gt hMpos
    simp only [renderPixelBarChart, hctx, Bool.true_eq_false, if_false]
    refine ⟨_, rfl, by simp, ?_⟩
    intro hib
    simp only [List.getElem_map, List.getElem_enum, hM,
      JSNum.div_fin _ _ hn, JSNum.mul_fin, JSNum.sub_fin, JSNum.add_fin,
      JSNum.div_fin _ _ (by norm_num : (2 : ℚ) ≠ 0),
      JSNum.div_fin _ _ hM0]
    refine ⟨?_, ?_, ?_⟩ <;> · congr 1; ring_nf
  · norm_num [renderPixelBarChart, jsMaxQ, List.enum, List.enumFrom,
      JSNum.div, JSNum.mul, JSNum.add, JSNum.sub]

/-- C6: for a nonempty constant input sequence, `renderSparkline`'s range
guard (`range = max - min || 1`) substitutes `1`, the normalized fraction is
`0` for every point, and every point's y-coordinate is the finite number
`height - padding` — all points at the same vertical position, none `NaN`. -/
theorem renderSparkline_constant_flat :
    ∀ (cv : Canvas) (values : List ℚ) (c : ℚ),
      cv.ctxAvailable = true → values ≠ [] → (∀ v ∈ values, v = c) →
      ∃ pts, renderSparkline (some cv) values = .ok (some pts) ∧
        pts.length = values.length ∧
        ∀ (i : Nat) (hi : i < pts.length), (pts[i]).2 = .fin (cv.height - 4) := by
  intro cv values c hctx hne hconst
  simp only [renderSparkline, hctx, Bool.true_eq_false, if_false,
    jsMaxQ_const values c hne hconst, jsMinQ_const values c hne hconst]
  refine ⟨_, rfl, by simp, ?_⟩
  intro i hi
  have hilen : i < values.length := by
    simpa using hi
  have hv : values[i] = c :=
    hconst _ (List.getElem_mem hilen)
  simp only [List.getElem_map, List.getElem_enum, hv, JSNum.sub_fin, sub_self,
    jsOrOne_zero, JSNum.div_fin _ _ (by norm_num : (1 : ℚ) ≠ 0), JSNum.mul_fin]
  congr 1
  ring

/-- C8 counterexample: the claim says both renderers silently no-op whenever
the drawing surface or its 2d context is unavailable, but a `null` drawing
surface makes `canvas.getContext('2d')` throw a `TypeError`, so the call
raises an error instead of no-oping. -/
theorem renderCharts_null_surface_throws :
    renderPixelBarChart none [⟨"Jan", 0⟩] = .error "TypeError: canvas is null" ∧
    renderSparkline none [5] = .error "TypeError: canvas is null" ∧
    renderPixelBarChart none [⟨"Jan", 0⟩] ≠ .ok none ∧
    renderSparkline none [5] ≠ .ok none := by
  refine ⟨rfl, rfl, ?_, ?_⟩ <;> simp [renderPixelBarChart, renderSparkline]

/-- C8 amended: both renderers are silent no-ops — they return before any
drawing and raise no error — whenever the 2d drawing context is unavailable,
for every data input; a `null` drawing surface instead raises a `TypeError`. -/
theorem renderCharts_noop_without_ctx :
    ∀ (cv : Canvas) (data : List DataPoint) (values : List ℚ),
      cv.ctxAvailable = false →
      renderPixelBarChart (some cv) data = .ok none ∧
      renderSparkline (some cv) values = .ok none := by
  intro cv data values h
  constructor <;> simp [renderPixelBarChart, renderSparkline, h]

/-- C10: the sparkline's horizontal step divides by `values.length - 1` with
no guard, so it is finite for every input with at least two entries, while
for a singleton input the division is by zero: the step is not finite, and
the single drawn point's coordinate pair is not finite (its x-coordinate is
`NaN`). -/
theorem sparkStepX_finiteness :
    (∀ (cv : Canvas) (values : List ℚ), 2 ≤ values.length →
      (sparkStepX cv values).isFinite = true) ∧
    (∀ (cv : Canvas) (v : ℚ), cv.ctxAvailable = true →
      (sparkStepX cv [v]).isFinite = false ∧
      ∃ pt, renderSparkline (some cv) [v] = .ok (some [pt]) ∧
        pt.1 = JSNum.nan ∧ ((pt.1).isFinite && (pt.2).isFinite) = false) := by
  constructor
  · intro cv values hlen
    have h1 : ((values.length : ℚ)) ≠ 1 := by
      exact_mod_cast (by omega : values.length ≠ 1)
    have hd : ((values.length : ℚ)) - 1 ≠ 0 := sub_ne_zero.mpr h1
    simp [sparkStepX, JSNum.div_fin _ _ hd, JSNum.isFinite]
  · intro cv v hctx
    have hstep := sparkStepX_singleton_nonfinite cv v
    refine ⟨hstep, ?_⟩
    simp only [renderSparkline, hctx, Bool.true_eq_false, if_false]
    have hx : JSNum.add (.fin 4) (JSNum.mul (.fin ((0 : Nat) : ℚ)) (sparkStepX cv [v])) =
        JSNum.nan := by
      rw [show (((0 : Nat) : ℚ)) = (0 : ℚ) by norm_num,
        JSNum.mul_zero_nonfinite _ hstep, JSNum.add_fin_nan]
    refine ⟨_, rfl, ?_, ?_⟩
    · simpa [List.enum] using hx
    · exact JSNum.fst_nan_not_finite _ _ (by simpa [List.enum] using hx)

end ChartTheorems

section ModalLemmas

open Modal

lemma setHiddenAttr_of_mem (s : List Nat) (i : Nat) (h : i ∈ s) :
    setHiddenAttr s i = s := by
  simp [setHiddenAttr, h]

lemma mem_setHiddenAttr_self (s : List Nat) (i : Nat) : i ∈ setHiddenAttr s i := by
  unfold setHiddenAttr
  split
  · assumption
  · exact List.mem_cons_self i s

lemma mem_setHiddenAttr_ne (s : List Nat) (i j : Nat) (h : j ≠ i) :
    j ∈ setHiddenAttr s i ↔ j ∈ s := by
  unfold setHiddenAttr
  split
  · exact Iff.rfl
  · simp [List.mem_cons, h]

lemma setHiddenAttr_idem (s : List Nat) (i : Nat) :
    setHiddenAttr (setHiddenAttr s i) i = setHiddenAttr s i :=
  setHiddenAttr_of_mem _ _ (mem_setHiddenAttr_self s i)

lemma filter_ne_key_idem (l : List (Nat × String)) (i : Nat) :
    (l.filter (fun p => p.1 ≠ i)).filter (fun p => p.1 ≠ i) =
      l.filter (fun p => p.1 ≠ i) := by
  apply List.filter_eq_self.mpr
  intro a ha
  exact (List.mem_filter.mp ha).2

lemma setAria_idem (l : List (Nat × String)) (i : Nat) (v : String) :
    setAria (setAria l i v) i v = setAria l i v := by
  simp only [setAria, List.filter_cons]
  have hfalse : (decide (¬ ((i, v).1 = i))) = false := by simp
  rw [hfalse]
  simp [filter_ne_key_idem]

lemma getAria_setAria_self (l : List (Nat × String)) (i : Nat) (v : String) :
    getAria (setAria l i v) i = some v := by
  simp [getAria, setAria]

lemma getAria_filter_ne (l : List (Nat × String)) (i j : Nat) (h : j ≠ i) :
    getAria (l.filter (fun p => p.1 ≠ i)) j = getAria l j := by
  have hij : ¬ (i = j) := fun hh => h hh.symm
  induction l with
  | nil => rfl
  | cons a t ih =>
    simp only [decide_not] at ih ⊢
    by_cases ha : a.1 = i
    · have haj : ¬ (a.1 = j) := fun hh => h (hh ▸ ha)
      simp [List.filter_cons, getAria, ha, haj, hij, ih]
    · by_cases haj : a.1 = j
      · simp [List.filter_cons, getAria, ha, haj, h, ih]
      · simp [List.filter_cons, getAria, ha, haj, ih]

lemma getAria_setAria_ne (l : List (Nat × String)) (i j : Nat) (v : String)
    (h : j ≠ i) : getAria (setAria l i v) j = getAria l j := by
  have hij : ¬ (i = j) := fun hh => h hh.symm
  have hfil := getAria_filter_ne l i j h
  simp only [decide_not] at hfil
  simp [getAria, setAria, hij, hfil]

end ModalLemmas

section ModalTheorems

open Modal

/-- C3: for every non-null modal element, `openModal` records the element
focused immediately before opening in `previousFocus`, then moves focus to
the modal's explicit close control if one exists, otherwise to the first
element of the computed focusable-element sequence. -/
theorem openModal_focus_spec (st : ModalState) (w : World) (m : ModalElem) :
    (openModal st w (some m)).1.previousFocus = some w.activeElement ∧
    (∀ c, queryCloseBtn m = some c →
      (openModal st w (some m)).2.activeElement = c.id) ∧
    (queryCloseBtn m = none →
      ∀ f fs, (getFocusableElements m.children).map (fun e => e.id) = f :: fs →
        (openModal st w (some m)).2.activeElement = f) := by
  refine ⟨?_, ?_, ?_⟩
  · simp [openModal]
  · intro c hc
    simp [openModal, hc]
  · intro hnone f fs hfs
    simp [openModal, hnone, hfs]

/-- C4: after `openModal` on a non-null modal, `closeModal` on that modal
restores focus to the element recorded at open time (the one focused
immediately before opening), clears the recorded element, and clears the
cached focusable-element sequence and the first/last boundary references. -/
theorem closeModal_restores_focus (st : ModalState) (w : World) (m : ModalElem) :
    ((closeModal (openModal st w (some m)).1 (openModal st w (some m)).2
        (some m.id)).2).activeElement = w.activeElement ∧
    (closeModal (openModal st w (some m)).1 (openModal st w (some m)).2
        (some m.id)).1.previousFocus = none ∧
    (closeModal (openModal st w (some m)).1 (openModal st w (some m)).2
        (some m.id)).1.focusableElements = [] ∧
    (closeModal (openModal st w (some m)).1 (openModal st w (some m)).2
        (some m.id)).1.firstFocusable = none ∧
    (closeModal (openModal st w (some m)).1 (openModal st w (some m)).2
        (some m.id)).1.lastFocusable = none := by
  refine ⟨?_, ?_, ?_, ?_, ?_⟩ <;> simp [openModal, closeModal]

/-- C9: `closeModal` on any non-null element — whether or not it is the
currently active modal — leaves the active-modal reference null, the
focusable-element list empty, the first/last boundary references null, and
the body scroll lock released; and a second call with the same element
leaves both the module state and the page state unchanged (idempotence). -/
theorem closeModal_resets_and_idempotent (st : ModalState) (w : World) (mid : Nat) :
    (closeModal st w (some mid)).1.currentModal = none ∧
    (closeModal st w (some mid)).1.focusableElements = [] ∧
    (closeModal st w (some mid)).1.firstFocusable = none ∧
    (closeModal st w (some mid)).1.lastFocusable = none ∧
    (closeModal st w (some mid)).2.bodyOverflow = "" ∧
    closeModal (closeModal st w (some mid)).1 (closeModal st w (some mid)).2
      (some mid) = closeModal st w (some mid) := by
  cases hp : st.previousFocus <;>
    simp [closeModal, hp, setHiddenAttr_idem, setAria_idem]

/-- C5: while no modal is active the keydown handler does nothing; while a
modal is active, an Escape keydown prevents the default behavior and closes
exactly the currently active modal — its `hidden` and `aria-hidden`
attributes are set, and every other element's `hidden` and `aria-hidden`
state is untouched. -/
theorem handleModalKeydown_escape_spec (st : ModalState) (w : World)
    (key : String) (shiftKey : Bool) :
    (st.currentModal = none →
      handleModalKeydown st w key shiftKey = .ok (st, w, false)) ∧
    (∀ mid, st.currentModal = some mid →
      handleModalKeydown st w "Escape" shiftKey =
        .ok ((closeModal st w (some mid)).1, (closeModal st w (some mid)).2, true) ∧
      mid ∈ (closeModal st w (some mid)).2.hiddenSet ∧
      getAria (closeModal st w (some mid)).2.ariaHidden mid = some "true" ∧
      (∀ j, j ≠ mid →
        ((j ∈ (closeModal st w (some mid)).2.hiddenSet) ↔ j ∈ w.hiddenSet) ∧
        getAria (closeModal st w (some mid)).2.ariaHidden j =
          getAria w.ariaHidden j)) := by
  constructor
  · intro h
    simp [handleModalKeydown, h]
  · intro mid hmid
    refine ⟨?_, ?_, ?_, ?_⟩
    · simp [handleModalKeydown, hmid]
    · cases hp : st.previousFocus <;>
        simp [closeModal, hp, mem_setHiddenAttr_self]
    · cases hp : st.previousFocus <;>
        simp [closeModal, hp, getAria_setAria_self]
    · intro j hj
      cases hp : st.previousFocus <;>
        simp [closeModal, hp, mem_setHiddenAttr_ne _ _ _ hj,
          getAria_setAria_ne _ _ _ _ hj]

/-- C2: while a modal is active, with the boundary references pointing at the
first and last entries of the focusable-element list (as `openModal`
establishes), a forward Tab with focus on the last focusable element prevents
default and moves focus to the first, a Shift+Tab with focus on the first
prevents default and moves focus to the last — for any list with at least
one element — and the Tab handler is a no-op when the list is empty. -/
theorem handleTabKey_focus_wrap (st : ModalState) (w : World) (mid : Nat)
    (fs : List Nat) (hcur : st.currentModal = some mid)
    (hfs : st.focusableElements = fs) (hfirst : st.firstFocusable = fs.head?)
    (hlast : st.lastFocusable = fs.getLast?) :
    (fs = [] → ∀ sh, handleModalKeydown st w "Tab" sh = .ok (st, w, false)) ∧
    (∀ f l, fs.head? = some f → fs.getLast? = some l →
      (w.activeElement = l →
        handleModalKeydown st w "Tab" false =
          .ok (st, { w with activeElement := f }, true)) ∧
      (w.activeElement = f →
        handleModalKeydown st w "Tab" true =
          .ok (st, { w with activeElement := l }, true))) := by
  constructor
  · intro hempty sh
    simp [handleModalKeydown, hcur, handleTabKey, hfs, hempty, Except.map]
  · intro f l hf hl
    have hne : fs ≠ [] := by
      intro h'
      rw [h'] at hf
      simp at hf
    have hnotempty : fs.isEmpty = false := by
      cases fs
      · exact absurd rfl hne
      · rfl
    constructor
    · intro hact
      simp [handleModalKeydown, hcur, handleTabKey, hfs, hfirst, hlast,
        hf, hl, hact, hnotempty, jsFocus, Except.map]
    · intro hact
      simp [handleModalKeydown, hcur, handleTabKey, hfs, hfirst, hlast,
        hf, hl, hact, hnotempty, jsFocus, Except.map]

end ModalTheorems

section Witnesses

open Charts Modal

/-- Witness for the bar-chart layout theorem at the spec's `[{Jan,0},{Feb,100}]`
input on a 400×300 canvas, bar index 1. -/
theorem renderPixelBarChart_layout_witness :
    ∃ bars, renderPixelBarChart (some ⟨400, 300, true⟩)
        [⟨"Jan", 0⟩, ⟨"Feb", 100⟩] = .ok (some bars) ∧
      bars.length = ([⟨"Jan", 0⟩, ⟨"Feb", 100⟩] : List DataPoint).length ∧
      ∀ hib : 1 < bars.length,
        (bars[1]).w = .fin (((400 - 40 * 2) / ((2 : Nat) : ℚ)) * (1 - 1/5)) ∧
        (bars[1]).h = .fin (((100 : ℚ) / 100) * (300 - 40 * 2)) ∧
        (bars[1]).x = .fin (40 + ((1 : Nat) : ℚ) * ((400 - 40 * 2) / ((2 : Nat) : ℚ))
          + ((400 - 40 * 2) / ((2 : Nat) : ℚ)) * (1/5) / 2) :=
  renderPixelBarChart_layout.1 ⟨400, 300, true⟩ [⟨"Jan", 0⟩, ⟨"Feb", 100⟩] 100 1
    rfl (by norm_num [jsMaxQ]) (by norm_num) (by norm_num)

/-- Witness for the constant-sparkline theorem at five points all equal to 5
on a 100×30 canvas. -/
theorem renderSparkline_constant_flat_witness :
    ∃ pts, renderSparkline (some ⟨100, 30, true⟩) [5, 5, 5, 5, 5] = .ok (some pts) ∧
      pts.length = ([5, 5, 5, 5, 5] : List ℚ).length ∧
      ∀ (i : Nat) (hi : i < pts.length), (pts[i]).2 = .fin (30 - 4) :=
  renderSparkline_constant_flat ⟨100, 30, true⟩ [5, 5, 5, 5, 5] 5 rfl
    (by simp) (by simp)

/-- Witness for the context-unavailable no-op theorem. -/
theorem renderCharts_noop_without_ctx_witness :
    renderPixelBarChart (some ⟨50, 20, false⟩) [⟨"Jan", 1⟩] = .ok none ∧
    renderSparkline (some ⟨50, 20, false⟩) [1, 2] = .ok none :=
  renderCharts_noop_without_ctx ⟨50, 20, false⟩ [⟨"Jan", 1⟩] [1, 2] rfl

/-- Witness for the sparkline-step finiteness theorem: a two-point input has a
finite step, a singleton input has a non-finite step and a `NaN` x-coordinate. -/
theorem sparkStepX_finiteness_witness :
    (sparkStepX ⟨100, 30, true⟩ [1, 2]).isFinite = true ∧
    ((sparkStepX ⟨100, 30, true⟩ [7]).isFinite = false ∧
      ∃ pt, renderSparkline (some ⟨100, 30, true⟩) [7] = .ok (some [pt]) ∧
        pt.1 = JSNum.nan ∧ ((pt.1).isFinite && (pt.2).isFinite) = false) :=
  ⟨sparkStepX_finiteness.1 ⟨100, 30, true⟩ [1, 2] (by norm_num),
   sparkStepX_finiteness.2 ⟨100, 30, true⟩ 7 rfl⟩

/-- Witness for the `openModal` focus theorem: a modal whose descendants are a
close button (id 2) and another button (id 3), opened from focus on id 7,
records id 7 and focuses the close button. -/
theorem openModal_focus_witness :
    (openModal ⟨none, [], none, none, none⟩ ⟨7, "", [1], []⟩
      (some ⟨1, [⟨2, "button", ["modal-close"], none, false, none, false⟩,
                 ⟨3, "button", [], none, false, none, false⟩]⟩)).1.previousFocus =
        some 7 ∧
    (openModal ⟨none, [], none, none, none⟩ ⟨7, "", [1], []⟩
      (some ⟨1, [⟨2, "button", ["modal-close"], none, false, none, false⟩,
                 ⟨3, "button", [], none, false, none, false⟩]⟩)).2.activeElement = 2 :=
  ⟨(openModal_focus_spec _ _ _).1,
   (openModal_focus_spec _ _ _).2.1
     ⟨2, "button", ["modal-close"], none, false, none, false⟩ (by decide)⟩

/-- Witness for the Escape-keydown theorem: active modal id 1, focus restored
to id 9, element 1 gets `hidden` and `aria-hidden="true"`, element 2 is
untouched. -/
theorem handleModalKeydown_escape_witness :
    handleModalKeydown ⟨some 1, [], none, none, some 9⟩ ⟨5, "hidden", [], []⟩
        "Escape" false =
      .ok ((closeModal ⟨some 1, [], none, none, some 9⟩ ⟨5, "hidden", [], []⟩
              (some 1)).1,
           (closeModal ⟨some 1, [], none, none, some 9⟩ ⟨5, "hidden", [], []⟩
              (some 1)).2, true) ∧
    1 ∈ (closeModal ⟨some 1, [], none, none, some 9⟩ ⟨5, "hidden", [], []⟩
          (some 1)).2.hiddenSet ∧
    getAria (closeModal ⟨some 1, [], none, none, some 9⟩ ⟨5, "hidden", [], []⟩
          (some 1)).2.ariaHidden 1 = some "true" ∧
    ((2 ∈ (closeModal ⟨some 1, [], none, none, some 9⟩ ⟨5, "hidden", [], []⟩
          (some 1)).2.hiddenSet) ↔ 2 ∈ ([] : List Nat)) ∧
    getAria (closeModal ⟨some 1, [], none, none, some 9⟩ ⟨5, "hidden", [], []⟩
          (some 1)).2.ariaHidden 2 = getAria ([] : List (Nat × String)) 2 := by
  have h := (handleModalKeydown_escape_spec ⟨some 1, [], none, none, some 9⟩
    ⟨5, "hidden", [], []⟩ "Escape" false).2 1 rfl
  exact ⟨h.1, h.2.1, h.2.2.1, (h.2.2.2 2 (by decide)).1,
    (h.2.2.2 2 (by decide)).2⟩

/-- Witness for the Tab focus-wrap theorem: modal id 1 with focusable
elements [2, 3]; a forward Tab from 3 wraps to 2, and a Shift+Tab from 2
wraps to 3. -/
theorem handleTabKey_focus_wrap_witness :
    handleModalKeydown ⟨some 1, [2, 3], some 2, some 3, some 9⟩ ⟨3, "hidden", [], []⟩
        "Tab" false =
      .ok (⟨some 1, [2, 3], some 2, some 3, some 9⟩, ⟨2, "hidden", [], []⟩, true) ∧
    handleModalKeydown ⟨some 1, [2, 3], some 2, some 3, some 9⟩ ⟨2, "hidden", [], []⟩
        "Tab" true =
      .ok (⟨some 1, [2, 3], some 2, some 3, some 9⟩, ⟨3, "hidden", [], []⟩, true) :=
  ⟨((handleTabKey_focus_wrap ⟨some 1, [2, 3], some 2, some 3, some 9⟩
      ⟨3, "hidden", [], []⟩ 1 [2, 3] rfl rfl rfl rfl).2 2 3 rfl rfl).1 rfl,
   ((handleTabKey_focus_wrap ⟨some 1, [2, 3], some 2, some 3, some 9⟩
      ⟨2, "hidden", [], []⟩ 1 [2, 3] rfl rfl rfl rfl).2 2 3 rfl rfl).2 rfl⟩

end Witnesses

end Spec2Proof
